import Mathlib

/-!
Shallow embedding of the wapu-api message-routing subsystem:
`core/nli.py` (NLIRouter.route_message), `core/agents/router_agent.py`
(RouterAgent.analyze_intent), `api/agents/base_agent/base_agent.py`
(AIAgent.calculate_crypto_amount / process_message), `api/views.py`
(the `agent` endpoint), `core/agents/risk_agent.py` (_get_pool_data)
and `data/historical.py` (get_pool_history).

Python dictionaries are modelled as insertion-ordered association lists
over an inductive `PyVal`; external capabilities (the Swarm LLM client,
the CoinGecko price lookup, dolarapi, market-data fetches) are delegate
parameters, as the repository treats them as opaque fallible services.
Machine floats of the source are modelled as rationals.
-/

namespace Wapu

/-- Values of the Python data the routing subsystem manipulates:
strings, numbers (floats modelled as rationals), dicts (insertion-ordered
association lists), lists, booleans and None. -/
inductive PyVal where
  | str (s : String)
  | num (q : ℚ)
  | dict (fields : List (String × PyVal))
  | list (items : List PyVal)
  | bool (b : Bool)
  | null

/-- First-match lookup in an association list, the model of `d[k]` /
`d.get(k)` on a Python dict (keys are unique in actual dicts, so
first-match agrees with dict lookup). -/
def lookupKey : List (String × PyVal) → String → Option PyVal
  | [], _ => none
  | (k, v) :: t, key => if k == key then some v else lookupKey t key

/-- Model of Python dict assignment `d[k] = v` / one step of `d.update`:
overwrite the existing entry in place, else append at the end. -/
def setKey (fs : List (String × PyVal)) (key : String) (v : PyVal) :
    List (String × PyVal) :=
  if fs.any (fun p => p.1 == key) then
    fs.map (fun p => if p.1 == key then (key, v) else p)
  else fs ++ [(key, v)]

/-- Model of Python `d.update(kvs)` on a dict value (non-dicts unchanged). -/
def py_update (v : PyVal) (kvs : List (String × PyVal)) : PyVal :=
  match v with
  | .dict fs => .dict (kvs.foldl (fun acc kv => setKey acc kv.1 kv.2) fs)
  | other => other

/-- Lookup of a key on a `PyVal` (dicts only). -/
def PyVal.get? : PyVal → String → Option PyVal
  | .dict fs, k => lookupKey fs k
  | _, _ => none

/-- Model of Python `"k" in d`. -/
def PyVal.has_key (v : PyVal) (k : String) : Bool :=
  (v.get? k).isSome

/-- Key list of a dict value, in insertion order (`list(d.keys())`). -/
def PyVal.keys? : PyVal → Option (List String)
  | .dict fs => some (fs.map (fun p => p.1))
  | _ => none

/-- String stored under a key, when it is a string. -/
def PyVal.getStr (v : PyVal) (k : String) : Option String :=
  match v.get? k with
  | some (.str s) => some s
  | _ => none

/-- Number stored under a key, when it is a number. -/
def PyVal.getNum (v : PyVal) (k : String) : Option ℚ :=
  match v.get? k with
  | some (.num q) => some q
  | _ => none

/-- Two-level string access `d[k1][k2]`. -/
def PyVal.getStr2 (v : PyVal) (k1 k2 : String) : Option String :=
  match v.get? k1 with
  | some inner => inner.getStr k2
  | none => none

/-- Two-level number access `d[k1][k2]`. -/
def PyVal.getNum2 (v : PyVal) (k1 k2 : String) : Option ℚ :=
  match v.get? k1 with
  | some inner => inner.getNum k2
  | none => none

/-- Model of Python truthiness (`if not message`): None, empty string,
zero, empty containers and False are falsy. -/
def pyTruthy : PyVal → Bool
  | .str s => !(s == "")
  | .num q => decide (q ≠ 0)
  | .bool b => b
  | .dict [] => false
  | .dict (_ :: _) => true
  | .list [] => false
  | .list (_ :: _) => true
  | .null => false

/-- Whether the character list `s` starts with the pattern `pat`. -/
def chars_start_with : List Char → List Char → Bool
  | _, [] => true
  | [], _ :: _ => false
  | c :: s, p :: ps => c == p && chars_start_with s ps

/-- Whether the pattern occurs as a contiguous run of the character list. -/
def chars_contain (pat : List Char) : List Char → Bool
  | [] => pat.isEmpty
  | c :: t => chars_start_with (c :: t) pat || chars_contain pat t

/-- Model of Python substring containment `pat in s`. -/
def py_in (pat s : String) : Bool :=
  chars_contain pat.data s.data

/-- Model of Python `s.lower()` (character-wise lowercasing). -/
def py_lower (s : String) : String :=
  String.mk (s.data.map Char.toLower)

/-- Splitting a character list at a separator, keeping empty fragments
(the core of Python `str.split`). -/
def split_chars (sep : Char) : List Char → List (List Char)
  | [] => [[]]
  | c :: t =>
    let rest := split_chars sep t
    if c == sep then [] :: rest
    else
      match rest with
      | [] => [[c]]
      | h :: r => (c :: h) :: r

/-- Model of Python `s.split()` on space-separated text: split on spaces
and drop empty fragments. -/
def py_split (s : String) : List String :=
  ((split_chars ' ' s.data).map String.mk).filter (fun w => !(w == ""))

/-- Numeric value of a digit character list (empty list gives 0). -/
def digitsVal (cs : List Char) : ℕ :=
  cs.foldl (fun a c => a * 10 + (c.toNat - 48)) 0

/-- Whether every character of the list is a decimal digit. -/
def allDigits (cs : List Char) : Bool :=
  cs.all Char.isDigit

/-- Model of Python `float(s)` on the decimal forms the extraction loop
feeds it: optional sign, digits with at most one decimal point, at least
one digit overall. Exotic accepted forms of CPython (exponents, inf/nan,
underscores) are outside the inputs this code path can produce from
word tokens and are modelled as parse failures. -/
def pyFloat? (s : String) : Option ℚ :=
  let core : List Char → Option ℚ := fun body =>
    match split_chars '.' body with
    | [ip] =>
        if allDigits ip && !ip.isEmpty then some ((digitsVal ip : ℕ) : ℚ)
        else none
    | [ip, fp] =>
        if allDigits ip && allDigits fp && !(ip.isEmpty && fp.isEmpty) then
          some ((digitsVal ip : ℚ) + (digitsVal fp : ℚ) / (10 ^ fp.length))
        else none
    | _ => none
  match s.data with
  | '-' :: t => (core t).map (fun q => -q)
  | '+' :: t => core t
  | _ => core s.data

/-- Model of `word.replace(',', '').replace(' ', '')` in the number
extraction loop of `AIAgent.process_message`. -/
def clean_word (w : String) : String :=
  String.mk (w.data.filter (fun c => !(c == ',' || c == ' ')))

/-- Outcome of `AIAgent.get_crypto_price` (the CoinGecko lookup, an opaque
external capability): either an error dict `... error ...`, or a dict
`assetId to usd price and optional 24h change` keyed by the resolved coin
id, matching the shapes the source inspects (`"error" in price_data`,
`list(price_data.keys())[0]`, `[coin_id]["usd"]`, `.get("usd_24h_change")`). -/
inductive PriceData where
  | err (msg : String)
  | ok (coin_id : String) (usd : ℚ) (usd_24h_change : Option ℚ)

/-- Embedding of `AIAgent.calculate_crypto_amount`
(src/api/agents/base_agent/base_agent.py lines 33-74), with the price
lookup `self.get_crypto_price` passed as a delegate. The source's
`amount / price` sits in a `try` that catches `ZeroDivisionError` and
returns an error dict; the `p = 0` branch below is that handler. -/
def calculate_crypto_amount (lookup : String → PriceData) (amount : ℚ)
    (symbol : String) (conversion_type : String) : PyVal :=
  match lookup symbol with
  | .err m => .dict [("error", .str m)]
  | .ok _ price _ =>
    if conversion_type == "to_usd" then
      .dict [("input_amount", .num amount),
             ("input_currency", .str symbol),
             ("output_amount", .num (amount * price)),
             ("output_currency", .str "USD"),
             ("rate", .num price)]
    else
      if price = 0 then
        .dict [("error", .str "Failed to calculate conversion: float division by zero")]
      else
        .dict [("input_amount", .num amount),
               ("input_currency", .str "USD"),
               ("output_amount", .num (amount / price)),
               ("output_currency", .str symbol),
               ("rate", .num price)]

/-- Symbol alias table of `AIAgent.process_message` (`crypto_symbols`),
in source insertion order. -/
def crypto_symbols : List (String × List String) :=
  [("btc", ["btc", "bitcoin", "btcs", "xbt", "bitcoins", "бтк"]),
   ("eth", ["eth", "ethereum", "ether", "ethereums", "етх"]),
   ("sol", ["sol", "solana", "sols", "солана"]),
   ("usdt", ["usdt", "tether", "тезер"]),
   ("bnb", ["bnb", "binance", "binance coin", "binancecoin"]),
   ("ada", ["ada", "cardano", "кардано"]),
   ("xrp", ["xrp", "ripple", "рипл"]),
   ("doge", ["doge", "dogecoin", "догекоин"])]

/-- Keyword list `dollar_keywords` of `AIAgent.process_message`. -/
def dollar_keywords : List String :=
  ["dolar", "dolares", "dólar", "dólares", "blue",
   "oficial", "tarjeta", "cripto", "mayorista",
   "cuanto esta", "cuánto está", "cotización", "cotizacion",
   "precio del dolar", "precio dolar"]

/-- Dollar-query test of `AIAgent.process_message`:
`any(keyword in message.lower() for keyword in dollar_keywords)`. -/
def is_dollar_query (message : String) : Bool :=
  dollar_keywords.any (fun k => py_in k (py_lower message))

/-- Outcome of `AIAgent.get_dollar_rates` (dolarapi, opaque capability):
a success flag with the rate records, or a failure. The numeric rate
fields only feed a rendered text and are carried as strings. -/
inductive DollarRatesResult where
  | success (data : List (String × String × String))
  | failure (err : String)

/-- Human-readable rate text built by the dollar branch of
`AIAgent.process_message` (`response_text`). -/
def dollar_rates_text (data : List (String × String × String)) : String :=
  data.foldl
    (fun acc r =>
      acc ++ "\n" ++ r.1 ++ ":\n" ++ "Compra: $" ++ r.2.1 ++ "\n" ++
        "Venta: $" ++ r.2.2 ++ "\n")
    "Cotizaciones del dólar:\n"

/-- Rates rendered as the JSON list stored under `data.rates`. -/
def dollar_rates_payload (data : List (String × String × String)) : PyVal :=
  .list (data.map (fun r =>
    .dict [("nombre", .str r.1), ("compra", .str r.2.1), ("venta", .str r.2.2)]))

/-- Result dict of the dollar branch of `AIAgent.process_message`: the
`dollar_rates` result plus the `response` key assigned afterwards. -/
def dollar_result (data : List (String × String × String)) (nowIso : String)
    (nowTs : ℚ) (message : String) (context : List (String × PyVal)) : PyVal :=
  py_update
    (.dict [("type", .str "dollar_rates"),
            ("data", .dict [("rates", dollar_rates_payload data),
                            ("timestamp", .num nowTs)]),
            ("metadata", .dict [("timestamp", .str nowIso),
                                ("query", .str message),
                                ("context", .dict context)])])
    [("response", .str (dollar_rates_text data))]

/-- Base result dict of `AIAgent.process_message` before the crypto
update: `response`, `type = "general"`, empty `data`, metadata. -/
def base_result (llmContent : String) (nowIso : String) (message : String)
    (context : List (String × PyVal)) : PyVal :=
  .dict [("response", .str llmContent),
         ("type", .str "general"),
         ("data", .dict []),
         ("metadata", .dict [("timestamp", .str nowIso),
                             ("query", .str message),
                             ("context", .dict context)])]

/-- First crypto symbol found in the message words, scanning words in
order and the alias table in insertion order (the nested `for` loops of
`AIAgent.process_message`). -/
def find_symbol (words : List String) : Option String :=
  words.findSome? (fun w =>
    crypto_symbols.findSome? (fun p => if p.2.contains w then some p.1 else none))

/-- Numbers extracted from the message words (`found_numbers`): each word
is cleaned of commas and spaces, then parsed as a float; failures are
skipped. After the comma removal the source's `elif ','` branch is
unreachable, so every surviving word goes through `float(cleaned_word)`. -/
def find_numbers (words : List String) : List ℚ :=
  words.filterMap (fun w => pyFloat? (clean_word w))

/-- Update applied by the symbol/number extraction tail of
`AIAgent.process_message` (the `result.update` calls): `none` when the
base `general` result is kept unchanged. -/
def crypto_update (lookup : String → PriceData) (nowTs : ℚ)
    (message : String) : Option (List (String × PyVal)) :=
  let words := py_split (py_lower message)
  match find_symbol words with
  | none => none
  | some sym =>
    match lookup sym with
    | .err _ => none
    | .ok cid price chg =>
      match find_numbers words with
      | [] =>
        some [("type", .str "price_query"),
              ("data", .dict
                [("price_usd", .num price),
                 ("price_change_24h", match chg with
                   | some c => .num c
                   | none => .null),
                 ("symbol", .str sym),
                 ("coin_id", .str cid),
                 ("timestamp", .num nowTs)])]
      | amount :: _ =>
        let conversion := calculate_crypto_amount lookup amount sym "to_usd"
        if conversion.has_key "error" then none
        else
          some [("type", .str "conversion_query"),
                ("data", .dict
                  [("input_amount", (conversion.get? "input_amount").getD .null),
                   ("input_currency", (conversion.get? "input_currency").getD .null),
                   ("output_amount", (conversion.get? "output_amount").getD .null),
                   ("output_currency", (conversion.get? "output_currency").getD .null),
                   ("rate", (conversion.get? "rate").getD .null),
                   ("timestamp", .num nowTs)])]

/-- Embedding of `AIAgent.process_message`
(src/api/agents/base_agent/base_agent.py lines 268-334). Delegates:
`lookup` for `get_crypto_price`, `dollar` for `get_dollar_rates`,
`llmContent` for the Swarm reply text, `nowIso`/`nowTs` for the clock.
When the dollar branch does not return (not a dollar query, or rates not
successful) control falls through to the general path, whose result is
then updated by the symbol/number extraction. -/
def process_message (lookup : String → PriceData) (dollar : DollarRatesResult)
    (llmContent : String) (nowIso : String) (nowTs : ℚ)
    (message : String) (context : List (String × PyVal)) : PyVal :=
  let dollarBranch : Option PyVal :=
    if is_dollar_query message then
      match dollar with
      | .success data => some (dollar_result data nowIso nowTs message context)
      | .failure _ => none
    else none
  match dollarBranch with
  | some r => r
  | none =>
    let result := base_result llmContent nowIso message context
    match crypto_update lookup nowTs message with
    | some upd => py_update result upd
    | none => result

/-! RouterAgent.analyze_intent (src/core/agents/router_agent.py). -/

/-- Shallow rendering used by the context-formatting loop when it falls
back to Python `str(...)` of a non-string value. Only the string case is
exercised by any theorem below; container reprs are abbreviated. -/
def py_str : PyVal → String
  | .str s => s
  | .num q => toString q
  | .bool b => if b then "True" else "False"
  | .null => "None"
  | .dict _ => "dict"
  | .list _ => "list"

/-- One line of the context-formatting loop of
`RouterAgent.analyze_intent`: strings render as `role: text`, dicts as
`role: text.get('message', str(text))`, every other value is skipped. -/
def context_line (p : String × PyVal) : Option String :=
  match p.2 with
  | .str s => some (p.1 ++ ": " ++ s)
  | .dict fs =>
    some (p.1 ++ ": " ++
      (match lookupKey fs "message" with
       | some (.str s) => s
       | some v => py_str v
       | none => py_str (.dict fs)))
  | _ => none

/-- The `context_messages` list of `RouterAgent.analyze_intent`: context
items are reversed (most recent first) and rendered, non-string
non-dict values being dropped. -/
def context_messages (context : List (String × PyVal)) : List String :=
  context.reverse.filterMap context_line

/-- The `conversation` string spliced into the classification prompt:
newline join of the rendered lines, empty when there are none. -/
def conversation_of (context : List (String × PyVal)) : String :=
  String.intercalate "\n" (context_messages context)

/-- Outcome of the Swarm classification call inside
`RouterAgent.analyze_intent`: the call raises, or returns a message with
no `tool_calls`, or returns a first tool call with an `arguments`
string. -/
inductive SwarmOutcome where
  | raises (e : String)
  | noToolCalls
  | toolCall (args : String)

/-- Embedding of `RouterAgent.analyze_intent`
(src/core/agents/router_agent.py lines 63-116): `jsonLoads` is the
`json.loads` step on the tool-call arguments (a raising parse is caught
by the surrounding `try`), `outcome` the Swarm delegate's behavior. The
function is total: it never propagates an exception. -/
def analyze_intent (jsonLoads : String → Except String PyVal)
    (outcome : SwarmOutcome) : PyVal :=
  match outcome with
  | .raises e =>
      .dict [("agent_type", .str "base"),
             ("confidence", .num 0),
             ("reasoning", .str ("Error: " ++ e))]
  | .noToolCalls =>
      .dict [("agent_type", .str "base"),
             ("confidence", .num (1 / 2)),
             ("reasoning", .str "Failed to determine specific intent")]
  | .toolCall args =>
    match jsonLoads args with
    | .ok v => v
    | .error e =>
        .dict [("agent_type", .str "base"),
               ("confidence", .num 0),
               ("reasoning", .str ("Error: " ++ e))]

/-! NLIRouter.route_message (src/core/nli.py). -/

/-- The routing triple `route_message` reads off the `analyze_intent`
result (`routing["agent_type"]`, `routing["confidence"]`,
`routing["reasoning"]`). -/
structure RoutingDecision where
  agent_type : String
  confidence : ℚ
  reasoning : String

/-- Inline chain-options text returned by the `trading` branch when the
message names no supported chain. -/
def trading_options_text : String :=
  "Please specify which chain you\x27d like to provide liquidity on:\n\n                    Avalanche (AVAX) - Available now\n                    • Trader Joe V2 pools on Avalanche\n                    • Currently supporting AVAX-USDC and AVAX-USDT pairs\n                    • Concentrated liquidity positions for better capital efficiency\n\n                    UniChain - Coming soon\n                    • UniChain DEX pools\n                    • Multiple pairs with automated market making\n                    • Yield farming opportunities"

/-- Handler selection of `NLIRouter.route_message`: the if/elif chain on
`agent_type`, with the `trading` branch testing the lowercased message
for chain names. The five delegates are the `process_message` outcomes
of the lazily-held agent instances (each may raise). -/
def dispatch_agent (message : String) (routing : RoutingDecision)
    (dh rh lh ih bh : Except String PyVal) : Except String PyVal :=
  let ml := py_lower message
  if routing.agent_type == "deployment" then dh
  else if routing.agent_type == "risk" then rh
  else if routing.agent_type == "trading" then
    if py_in "avalanche" ml || py_in "avax" ml then lh
    else if py_in "unichain" ml then
      .ok (.dict [("error", .str "UniChain LP functionality coming soon!")])
    else
      .ok (.dict [("message", .str trading_options_text)])
  else if routing.agent_type == "image" then ih
  else bh

/-- Metadata attachment of `NLIRouter.route_message`: when the handler
response is a dict, `response["routing"] = ...` is assigned; other
values pass through unchanged. -/
def attach_routing (routing : RoutingDecision) (response : PyVal) : PyVal :=
  match response with
  | .dict fs =>
      .dict (setKey fs "routing"
        (.dict [("agent", .str routing.agent_type),
                ("confidence", .num routing.confidence),
                ("reasoning", .str routing.reasoning)]))
  | v => v

/-- Body of the `try` block of `NLIRouter.route_message`: classify,
dispatch, attach routing metadata; any raising step aborts with its
exception text. -/
def route_core (message : String) (analyze : Except String RoutingDecision)
    (dh rh lh ih bh : Except String PyVal) : Except String PyVal :=
  match analyze with
  | .error e => .error e
  | .ok routing =>
    match dispatch_agent message routing dh rh lh ih bh with
    | .error e => .error e
    | .ok response => .ok (attach_routing routing response)

/-- The catch-all error Response of `NLIRouter.route_message`. -/
def error_response (e : String) : PyVal :=
  .dict [("error", .str e),
         ("routing", .dict [("agent", .str "error"),
                            ("confidence", .num 0),
                            ("reasoning", .str e)])]

/-- Embedding of `NLIRouter.route_message` (src/core/nli.py lines
58-124): the `try` body with the outer `except` converting any raised
exception into the error-shaped Response. `analyze` is the outcome of
`self.router_agent.analyze_intent` (folding in a possible `KeyError`
when the parsed payload lacks the routing keys), and the five handler
delegates are the agent `process_message` outcomes. Total by
construction: no exception propagates. -/
def route_message (message : String) (analyze : Except String RoutingDecision)
    (dh rh lh ih bh : Except String PyVal) : PyVal :=
  match route_core message analyze dh rh lh ih bh with
  | .ok v => v
  | .error e => error_response e

/-! The `agent` endpoint (src/api/views.py lines 139-171). -/

/-- Validity test the endpoint applies to each history item:
`isinstance(item, dict) and 'role' in item and 'content' in item`. -/
def valid_history_item : PyVal → Bool
  | .dict fs => fs.any (fun p => p.1 == "role") && fs.any (fun p => p.1 == "content")
  | _ => false

/-- History validation of the `agent` view: when `context` is a dict
containing `history`, that value must be a list of valid items;
otherwise the processed history is empty. -/
def validate_history (context : PyVal) : Except String (List PyVal) :=
  match context with
  | .dict fs =>
    match lookupKey fs "history" with
    | some (.list items) =>
        if items.all valid_history_item then .ok items
        else .error "Invalid history item format"
    | some _ => .error "Context history must be a list"
    | none => .ok []
  | _ => .ok []

/-- Result of the `agent` view before the router call: a 400 client
error, or the message together with the context dict actually passed to
`nli_router.route_message` (always of shape `history to list`). -/
inductive AgentResult where
  | reject400 (err : String)
  | routed (message : PyVal) (context : List (String × PyVal))

/-- Embedding of the `agent` view (src/api/views.py lines 139-171):
read `message` and `context` from the request body, validate the
history, reject falsy messages, else hand
`(message, context with history)` to the router. -/
def agent_view (req : List (String × PyVal)) : AgentResult :=
  let message := (lookupKey req "message").getD .null
  let context := (lookupKey req "context").getD (.dict [])
  match validate_history context with
  | .error e => .reject400 e
  | .ok hist =>
    if pyTruthy message then .routed message [("history", .list hist)]
    else .reject400 "Message is required"

/-- Whether the view produced a client error. -/
def is_reject : AgentResult → Bool
  | .reject400 _ => true
  | .routed _ _ => false

/-! TTL caches: RiskAgent._get_pool_data (src/core/agents/risk_agent.py
lines 67-92) and HistoricalDataService.get_pool_history
(src/data/historical.py lines 42-96). -/

/-- Cache slot pair held by each service: the cached value and the
`datetime` it was stored (`pool_data_cache`/`cache_timestamp`,
`_history_cache`/`_history_timestamp`), times in whole seconds. -/
structure CacheState (V : Type) where
  cache : Option V
  timestamp : Option ℕ

/-- The `.seconds` attribute of a non-negative Python `timedelta`:
the seconds component after normalization to days, which wraps at one
day (86400 seconds) — not the total elapsed seconds. -/
def timedelta_seconds (now ts : ℕ) : ℕ :=
  (now - ts) % 86400

/-- Embedding of `RiskAgent._get_pool_data`: serve the cache when
`(now - cache_timestamp).seconds < 60`, else fetch
`market_data.get_pool_metrics()` (delegate; `.ok none` is a falsy
result, which the source turns into a raise) and repopulate. Every
exception of the body is re-raised as `Failed to get pool data`. The
returned Bool records whether the underlying fetch was invoked. -/
def get_pool_data {V : Type} (fetch : Except String (Option V))
    (st : CacheState V) (now : ℕ) : Except String (V × CacheState V × Bool) :=
  let fresh : Except String (V × CacheState V × Bool) :=
    match fetch with
    | .ok (some pd) => .ok (pd, ⟨some pd, some now⟩, true)
    | .ok none => .error "Failed to get pool data"
    | .error _ => .error "Failed to get pool data"
  match st.cache, st.timestamp with
  | some v, some ts =>
      if timedelta_seconds now ts < 60 then .ok (v, st, false) else fresh
  | _, _ => fresh

/-- Embedding of `HistoricalDataService.get_pool_history`: identical
cache discipline with a 300-second TTL; a failing fetch re-raises as
`Error fetching historical data: ...`. -/
def get_pool_history {V : Type} (fetch : Except String V)
    (st : CacheState V) (now : ℕ) : Except String (V × CacheState V × Bool) :=
  let fresh : Except String (V × CacheState V × Bool) :=
    match fetch with
    | .ok m => .ok (m, ⟨some m, some now⟩, true)
    | .error e => .error ("Error fetching historical data: " ++ e)
  match st.cache, st.timestamp with
  | some v, some ts =>
      if timedelta_seconds now ts < 300 then .ok (v, st, false) else fresh
  | _, _ => fresh

/-! Helper lemmas about dict operations. -/

theorem lookupKey_eq_none_of_no_key (k : String) :
    ∀ fs : List (String × PyVal), fs.any (fun p => p.1 == k) = false →
      lookupKey fs k = none := by
  intro fs
  induction fs with
  | nil => intro _; rfl
  | cons p t ih =>
    intro h
    obtain ⟨a, b⟩ := p
    simp only [List.any_cons, Bool.or_eq_false_iff] at h
    obtain ⟨h1, h2⟩ := h
    simp only [lookupKey, h1, Bool.false_eq_true, if_false]
    exact ih h2

theorem lookupKey_append_of_none (k : String) (l : List (String × PyVal)) :
    ∀ fs : List (String × PyVal), lookupKey fs k = none →
      lookupKey (fs ++ l) k = lookupKey l k := by
  intro fs
  induction fs with
  | nil => intro _; rfl
  | cons p t ih =>
    intro h
    obtain ⟨a, b⟩ := p
    by_cases ha : (a == k) = true
    · simp [lookupKey, ha] at h
    · simp only [lookupKey, ha, Bool.false_eq_true, if_false] at h ⊢
      · exact ih h

theorem lookupKey_map_set (k : String) (v : PyVal) :
    ∀ fs : List (String × PyVal), fs.any (fun p => p.1 == k) = true →
      lookupKey (fs.map (fun p => if p.1 == k then (k, v) else p)) k = some v := by
  intro fs
  induction fs with
  | nil => intro h; simp at h
  | cons p t ih =>
    intro h
    obtain ⟨a, b⟩ := p
    rw [List.map_cons]
    by_cases ha : (a == k) = true
    · rw [if_pos ha]
      simp [lookupKey]
    · have hne : ((a, b).1 == k) = false := by simpa using ha
      rw [if_neg (by simp [hne])]
      have ht : t.any (fun p => p.1 == k) = true := by
        simpa [List.any_cons, hne] using h
      simp only [lookupKey, hne, Bool.false_eq_true, if_false]
      exact ih ht

theorem lookupKey_setKey (fs : List (String × PyVal)) (k : String) (v : PyVal) :
    lookupKey (setKey fs k v) k = some v := by
  by_cases h : fs.any (fun p => p.1 == k) = true
  · simp only [setKey, h, if_true]
    exact lookupKey_map_set k v fs h
  · have h' : fs.any (fun p => p.1 == k) = false := Bool.eq_false_iff.mpr h
    simp only [setKey, h', Bool.false_eq_true, if_false]
    rw [lookupKey_append_of_none k _ fs (lookupKey_eq_none_of_no_key k fs h')]
    simp [lookupKey]

/-! Claims. -/

/-- C3: in `AIAgent.calculate_crypto_amount`, with a resolved unit price
`p` for the symbol, direction `to_usd` returns `output_amount = a * p`,
direction `from_usd` returns `output_amount = a / p`, and when `p = 0`
the `from_usd` direction returns an error payload (a dict with an
`error` key) instead of raising (the function is total). -/
theorem c3_calculate_crypto_amount_policy (a p : ℚ) (cid sym : String)
    (chg : Option ℚ) :
    ((calculate_crypto_amount (fun _ => .ok cid p chg) a sym "to_usd").getNum
        "output_amount" = some (a * p)) ∧
    (p ≠ 0 →
      (calculate_crypto_amount (fun _ => .ok cid p chg) a sym "from_usd").getNum
        "output_amount" = some (a / p)) ∧
    (p = 0 →
      (calculate_crypto_amount (fun _ => .ok cid p chg) a sym "from_usd").has_key
        "error" = true) := by
  refine ⟨rfl, ?_, ?_⟩
  · intro hp
    simp only [calculate_crypto_amount]
    rw [if_neg (by decide : ¬ (("from_usd" == "to_usd") = true)), if_neg hp]
    rfl
  · intro hp
    simp only [calculate_crypto_amount]
    rw [if_neg (by decide : ¬ (("from_usd" == "to_usd") = true)), if_pos hp]
    rfl

/-- Witness for C3 at the concrete figures of the spec: amount 2 at
price 3000 converts to 6000 USD, 3000 USD converts back to 1 unit, and
a zero price yields an error payload. -/
theorem c3_calculate_crypto_amount_policy_witness :
    ((calculate_crypto_amount (fun _ => .ok "ethereum" 3000 none) 2 "eth"
        "to_usd").getNum "output_amount" = some 6000) ∧
    ((calculate_crypto_amount (fun _ => .ok "ethereum" 3000 none) 3000 "eth"
        "from_usd").getNum "output_amount" = some 1) ∧
    ((calculate_crypto_amount (fun _ => .ok "ethereum" 0 none) 3000 "eth"
        "from_usd").has_key "error" = true) := by
  refine ⟨?_, ?_, ?_⟩
  · have h := (c3_calculate_crypto_amount_policy 2 3000 "ethereum" "eth" none).1
    norm_num at h
    exact h
  · have h := (c3_calculate_crypto_amount_policy 3000 3000 "ethereum" "eth" none).2.1
      (by norm_num)
    norm_num at h
    exact h
  · exact (c3_calculate_crypto_amount_policy 3000 0 "ethereum" "eth" none).2.2 rfl

/-- C4: for the message `Convert 2 ETH to USD` with the price lookup
mocked to resolve eth at 3000, `AIAgent.process_message` returns a
Response of type `conversion_query` whose data has
`output_amount = 6000` and `rate = 3000`, for every LLM reply, clock
value, context and dollar-rates outcome. -/
theorem c4_convert_two_eth (llm nowIso : String) (nowTs : ℚ)
    (context : List (String × PyVal)) (dollar : DollarRatesResult) :
    ((process_message (fun _ => .ok "ethereum" 3000 none) dollar llm nowIso
        nowTs "Convert 2 ETH to USD" context).getStr "type" =
      some "conversion_query") ∧
    ((process_message (fun _ => .ok "ethereum" 3000 none) dollar llm nowIso
        nowTs "Convert 2 ETH to USD" context).getNum2 "data" "output_amount" =
      some 6000) ∧
    ((process_message (fun _ => .ok "ethereum" 3000 none) dollar llm nowIso
        nowTs "Convert 2 ETH to USD" context).getNum2 "data" "rate" =
      some 3000) := by
  refine ⟨rfl, ?_, rfl⟩
  have h : (process_message (fun _ => .ok "ethereum" 3000 none) dollar llm nowIso
      nowTs "Convert 2 ETH to USD" context).getNum2 "data" "output_amount" =
      some (((2 : ℕ) : ℚ) * 3000) := rfl
  rw [h]
  norm_num

/-- C5 counterexample: for the exact message `How much is 0.5 BTC?` with
the price lookup mocked to resolve btc at 60000, `AIAgent.process_message`
returns type `general` — not the claimed `price_query` — and its data
carries no `price_usd`: the token `btc?` (with the trailing question
mark) matches no entry of the alias table, so no price is fetched. -/
theorem c5_half_btc_counterexample :
    ((process_message (fun _ => .ok "bitcoin" 60000 none) (.failure "unused")
        "reply" "2026-01-01T00:00:00" 0 "How much is 0.5 BTC?" []).getStr
      "type" = some "general") ∧
    some "general" ≠ some "price_query" ∧
    ((process_message (fun _ => .ok "bitcoin" 60000 none) (.failure "unused")
        "reply" "2026-01-01T00:00:00" 0 "How much is 0.5 BTC?" []).getNum2
      "data" "price_usd" = none) :=
  ⟨rfl, by decide, rfl⟩

/-- C5 amended: for the message `How much is 0.5 BTC?` the word `btc?`
fails the exact alias match, so for every LLM reply, clock, context and
dollar-rates outcome the Response keeps type `general` with empty data
(no `price_usd`, no `output_amount`); a bare symbol-matching price query
without a number (`price of btc`) does yield `price_query` with
`price_usd = 60000` and no conversion amount. -/
theorem c5_half_btc_behavior (llm nowIso : String) (nowTs : ℚ)
    (context : List (String × PyVal)) (dollar : DollarRatesResult) :
    ((process_message (fun _ => .ok "bitcoin" 60000 none) dollar llm nowIso
        nowTs "How much is 0.5 BTC?" context).getStr "type" = some "general") ∧
    ((process_message (fun _ => .ok "bitcoin" 60000 none) dollar llm nowIso
        nowTs "How much is 0.5 BTC?" context).getNum2 "data" "price_usd" =
      none) ∧
    ((process_message (fun _ => .ok "bitcoin" 60000 none) dollar llm nowIso
        nowTs "How much is 0.5 BTC?" context).getNum2 "data" "output_amount" =
      none) ∧
    ((process_message (fun _ => .ok "bitcoin" 60000 none) dollar llm nowIso
        nowTs "price of btc" context).getStr "type" = some "price_query") ∧
    ((process_message (fun _ => .ok "bitcoin" 60000 none) dollar llm nowIso
        nowTs "price of btc" context).getNum2 "data" "price_usd" =
      some 60000) ∧
    ((process_message (fun _ => .ok "bitcoin" 60000 none) dollar llm nowIso
        nowTs "price of btc" context).getNum2 "data" "output_amount" = none) :=
  ⟨rfl, rfl, rfl, rfl, rfl, rfl⟩

/-- C7: the TTL caches compare `(now - fetched_at).seconds` — the
`timedelta` seconds component, which wraps at one day — against the TTL.
Within one day of the fetch the claimed behavior holds (a call inside
the TTL serves the cached value without fetching, a call at or past the
TTL refetches and repopulates), but a call whose elapsed time is a
multiple of a day (here exactly 86400 s, far past the 60 s and 300 s
TTLs) serves the stale cache and never invokes the fetch, contradicting
the claimed `now - fetched_at >= ttl` refresh rule. -/
theorem c7_cache_ttl_wraparound :
    (get_pool_data (V := ℕ) (.ok (some 99)) ⟨some 42, some 0⟩ 30 =
      .ok (42, ⟨some 42, some 0⟩, false)) ∧
    (get_pool_data (V := ℕ) (.ok (some 99)) ⟨some 42, some 0⟩ 60 =
      .ok (99, ⟨some 99, some 60⟩, true)) ∧
    (get_pool_data (V := ℕ) (.ok (some 99)) ⟨some 42, some 0⟩ 86400 =
      .ok (42, ⟨some 42, some 0⟩, false)) ∧
    (get_pool_history (V := ℕ) (.ok 7) ⟨some 5, some 0⟩ 86460 =
      .ok (5, ⟨some 5, some 0⟩, false)) :=
  ⟨rfl, rfl, rfl, rfl⟩

/-- C2 counterexample: when the Swarm delegate returns no structured
function call, `RouterAgent.analyze_intent` falls back to agent_type
`base` with confidence 0.5 — not the claimed `general`. -/
theorem c2_analyze_intent_counterexample :
    ((analyze_intent (fun _ => .ok (.dict [])) .noToolCalls).getStr
      "agent_type" = some "base") ∧
    some "base" ≠ some "general" ∧
    ((analyze_intent (fun _ => .ok (.dict [])) .noToolCalls).getNum
      "confidence" = some (1 / 2)) :=
  ⟨rfl, by decide, rfl⟩

/-- C2 amended: `RouterAgent.analyze_intent` is total (never raises);
missing structured output yields the fallback
`agent_type = "base", confidence = 0.5, reasoning = "Failed to determine
specific intent"`; a raising delegate, or tool-call arguments whose
parse raises, yields `agent_type = "base", confidence = 0` with an error
reasoning containing the exception text; a successful parse is returned
verbatim. -/
theorem c2_analyze_intent_fallbacks (jsonLoads : String → Except String PyVal) :
    (analyze_intent jsonLoads .noToolCalls =
      .dict [("agent_type", .str "base"), ("confidence", .num (1 / 2)),
             ("reasoning", .str "Failed to determine specific intent")]) ∧
    (∀ e, analyze_intent jsonLoads (.raises e) =
      .dict [("agent_type", .str "base"), ("confidence", .num 0),
             ("reasoning", .str ("Error: " ++ e))]) ∧
    (∀ args v, jsonLoads args = .ok v →
      analyze_intent jsonLoads (.toolCall args) = v) ∧
    (∀ args e, jsonLoads args = .error e →
      analyze_intent jsonLoads (.toolCall args) =
        .dict [("agent_type", .str "base"), ("confidence", .num 0),
               ("reasoning", .str ("Error: " ++ e))]) := by
  refine ⟨rfl, fun e => rfl, ?_, ?_⟩
  · intro args v h
    simp [analyze_intent, h]
  · intro args e h
    simp [analyze_intent, h]

/-- Witness for C2's amended claim at concrete delegates: a parsed
tool call is returned verbatim, and a raising parse produces the
confidence-0 error fallback. -/
theorem c2_analyze_intent_fallbacks_witness :
    (analyze_intent (fun _ => .ok (.dict [("agent_type", .str "trading")]))
      (.toolCall "x") = .dict [("agent_type", .str "trading")]) ∧
    (analyze_intent (fun _ => .error "boom") (.toolCall "x") =
      .dict [("agent_type", .str "base"), ("confidence", .num 0),
             ("reasoning", .str "Error: boom")]) :=
  ⟨(c2_analyze_intent_fallbacks _).2.2.1 "x" _ rfl,
   (c2_analyze_intent_fallbacks _).2.2.2 "x" "boom" rfl⟩

/-- C1: whenever a step of `NLIRouter.route_message` raises — the
classification, or the dispatched handler invocation — the router does
not propagate the exception (it is total) and returns the dict with an
`error` key holding the exception text and a `routing` key equal to
`agent = "error", confidence = 0, reasoning = the exception text`. -/
theorem c1_route_message_error_shape (message : String)
    (analyze : Except String RoutingDecision)
    (dh rh lh ih bh : Except String PyVal) (e : String)
    (h : analyze = .error e ∨
      ∃ r, analyze = .ok r ∧ dispatch_agent message r dh rh lh ih bh = .error e) :
    route_message message analyze dh rh lh ih bh =
      .dict [("error", .str e),
             ("routing", .dict [("agent", .str "error"),
                                ("confidence", .num 0),
                                ("reasoning", .str e)])] := by
  rcases h with h | ⟨r, ha, hd⟩
  · subst h; rfl
  · subst ha
    simp [route_message, route_core, hd, error_response]

/-- Witness for C1: a risk handler mocked to throw `boom` still yields
the error-shaped Response. -/
theorem c1_route_message_error_shape_witness :
    route_message "analyze the pool risk" (.ok ⟨"risk", 1, "pool talk"⟩)
      (.ok (.dict [])) (.error "boom") (.ok (.dict [])) (.ok (.dict []))
      (.ok (.dict [])) =
      .dict [("error", .str "boom"),
             ("routing", .dict [("agent", .str "error"),
                                ("confidence", .num 0),
                                ("reasoning", .str "boom")])] :=
  c1_route_message_error_shape "analyze the pool risk" _ _ _ _ _ _ "boom"
    (Or.inr ⟨⟨"risk", 1, "pool talk"⟩, rfl, rfl⟩)

/-- C10: when the classifier says `trading` and the lowercased message
mentions none of `avalanche`, `avax`, `unichain`, the Response of
`NLIRouter.route_message` is a dict whose only keys are `message` and
`routing`; when it mentions `unichain` but neither `avalanche` nor
`avax`, the only keys are `error` and `routing`. -/
theorem c10_trading_no_chain_keys (message : String) (r : RoutingDecision)
    (dh rh lh ih bh : Except String PyVal)
    (ht : r.agent_type = "trading") :
    (py_in "avalanche" (py_lower message) = false →
     py_in "avax" (py_lower message) = false →
     py_in "unichain" (py_lower message) = false →
     (route_message message (.ok r) dh rh lh ih bh).keys? =
       some ["message", "routing"]) ∧
    (py_in "unichain" (py_lower message) = true →
     py_in "avalanche" (py_lower message) = false →
     py_in "avax" (py_lower message) = false →
     (route_message message (.ok r) dh rh lh ih bh).keys? =
       some ["error", "routing"]) := by
  constructor
  · intro h1 h2 h3
    have hd : dispatch_agent message r dh rh lh ih bh =
        .ok (.dict [("message", .str trading_options_text)]) := by
      simp [dispatch_agent, ht, h1, h2, h3]
    simp [route_message, route_core, hd, attach_routing, setKey, PyVal.keys?]
  · intro h1 h2 h3
    have hd : dispatch_agent message r dh rh lh ih bh =
        .ok (.dict [("error", .str "UniChain LP functionality coming soon!")]) := by
      simp [dispatch_agent, ht, h1, h2, h3]
    simp [route_message, route_core, hd, attach_routing, setKey, PyVal.keys?]

/-- Witness for C10 on concrete messages: a chainless LP request yields
exactly the `message`/`routing` keys, a unichain request exactly the
`error`/`routing` keys. -/
theorem c10_trading_no_chain_keys_witness :
    ((route_message "I want to provide liquidity" (.ok ⟨"trading", 1, "lp"⟩)
        (.ok (.dict [])) (.ok (.dict [])) (.ok (.dict [])) (.ok (.dict []))
        (.ok (.dict []))).keys? = some ["message", "routing"]) ∧
    ((route_message "provide liquidity on unichain" (.ok ⟨"trading", 1, "lp"⟩)
        (.ok (.dict [])) (.ok (.dict [])) (.ok (.dict [])) (.ok (.dict []))
        (.ok (.dict []))).keys? = some ["error", "routing"]) :=
  ⟨(c10_trading_no_chain_keys "I want to provide liquidity" ⟨"trading", 1, "lp"⟩
      _ _ _ _ _ rfl).1 rfl rfl rfl,
   (c10_trading_no_chain_keys "provide liquidity on unichain"
      ⟨"trading", 1, "lp"⟩ _ _ _ _ _ rfl).2 rfl rfl rfl⟩

/-- C9: the context rendering of `RouterAgent.analyze_intent` drops
every entry whose value is neither a string nor a dict; and since the
`agent` endpoint always hands the router a context of shape
`history to list`, whose single value is a list, the rendered
conversation is always empty for endpoint traffic. -/
theorem c9_context_dropped :
    (∀ req m ctx, agent_view req = .routed m ctx → conversation_of ctx = "") ∧
    (∀ (context : List (String × PyVal)) (role : String) (v : PyVal),
      context_line (role, v) = none →
      context_messages (context ++ [(role, v)]) = context_messages context) := by
  constructor
  · intro req m ctx h
    simp only [agent_view] at h
    rcases hv : validate_history ((lookupKey req "context").getD (.dict [])) with
      e | hist
    · rw [hv] at h
      simp at h
    · rw [hv] at h
      by_cases hm : pyTruthy ((lookupKey req "message").getD .null) = true
      · simp only [hm, if_true] at h
        obtain ⟨-, h2⟩ := AgentResult.routed.inj h
        subst h2
        rfl
      · simp [hm] at h
  · intro context role v hline
    unfold context_messages
    rw [List.reverse_append]
    simp [List.filterMap_cons, hline]

/-- Witness for C9: a validated request routes with an empty rendered
conversation, and an entry holding a list value is dropped. -/
theorem c9_context_dropped_witness :
    (conversation_of [("history",
      PyVal.list [PyVal.dict [("role", PyVal.str "user"),
                              ("content", PyVal.str "hi")]])] = "") ∧
    (context_messages ([("a", PyVal.str "x")] ++ [("history", PyVal.list [])]) =
      context_messages [("a", PyVal.str "x")]) :=
  ⟨c9_context_dropped.1
      [("message", PyVal.str "yo"),
       ("context", PyVal.dict [("history",
         PyVal.list [PyVal.dict [("role", PyVal.str "user"),
                                 ("content", PyVal.str "hi")]])])]
      (PyVal.str "yo") _ rfl,
   c9_context_dropped.2 [("a", PyVal.str "x")] "history" (PyVal.list []) rfl⟩

/-- C8 counterexample: the classifier delegate may return any
agent_type string; for `banana` the dispatched base handler's Response
carries `routing.agent = "banana"`, which is outside the closed intent
enum, refuting the claim that `routing.agent` is always drawn from it. -/
theorem c8_routing_agent_counterexample :
    ((route_message "hello" (.ok ⟨"banana", 1, "why"⟩) (.ok (.dict []))
        (.ok (.dict [])) (.ok (.dict [])) (.ok (.dict []))
        (.ok (.dict []))).getStr2 "routing" "agent" = some "banana") ∧
    ((["deployment", "risk", "trading", "image", "base", "general",
       "error"] : List String).contains "banana" = false) :=
  ⟨rfl, rfl⟩

/-- C8 amended: `routing.agent` is the classifier's `agent_type` string
verbatim whenever classification and the dispatched handler succeed with
a dict Response, and `error` whenever a step raises; it therefore lies
in the closed intent enum exactly when the classifier's string does (or
on failure), not unconditionally. -/
theorem c8_routing_agent_verbatim (message : String)
    (analyze : Except String RoutingDecision)
    (dh rh lh ih bh : Except String PyVal) :
    (∀ e, analyze = .error e →
      (route_message message analyze dh rh lh ih bh).getStr2 "routing" "agent" =
        some "error") ∧
    (∀ r e, analyze = .ok r →
      dispatch_agent message r dh rh lh ih bh = .error e →
      (route_message message analyze dh rh lh ih bh).getStr2 "routing" "agent" =
        some "error") ∧
    (∀ r fs, analyze = .ok r →
      dispatch_agent message r dh rh lh ih bh = .ok (.dict fs) →
      (route_message message analyze dh rh lh ih bh).getStr2 "routing" "agent" =
        some r.agent_type) := by
  refine ⟨?_, ?_, ?_⟩
  · intro e h; subst h; rfl
  · intro r e ha hd
    subst ha
    simp [route_message, route_core, hd, error_response, PyVal.getStr2,
      PyVal.get?, lookupKey, PyVal.getStr]
  · intro r fs ha hd
    subst ha
    simp only [route_message, route_core, hd, attach_routing]
    simp only [PyVal.getStr2, PyVal.get?, lookupKey_setKey, PyVal.getStr]
    rfl

/-- Witness for C8's amended claim: a failing classifier, a throwing
handler, and a successful `banana` classification each produce the
stated `routing.agent`. -/
theorem c8_routing_agent_verbatim_witness :
    ((route_message "m" (.error "x") (.ok (.dict [])) (.ok (.dict []))
        (.ok (.dict [])) (.ok (.dict [])) (.ok (.dict []))).getStr2
      "routing" "agent" = some "error") ∧
    ((route_message "m" (.ok ⟨"image", 1, "r"⟩) (.ok (.dict []))
        (.ok (.dict [])) (.ok (.dict [])) (.error "down")
        (.ok (.dict []))).getStr2 "routing" "agent" = some "error") ∧
    ((route_message "m" (.ok ⟨"banana", 1, "r"⟩) (.ok (.dict []))
        (.ok (.dict [])) (.ok (.dict [])) (.ok (.dict []))
        (.ok (.dict []))).getStr2 "routing" "agent" = some "banana") :=
  ⟨(c8_routing_agent_verbatim "m" _ _ _ _ _ _).1 "x" rfl,
   (c8_routing_agent_verbatim "m" _ _ _ _ _ _).2.1 ⟨"image", 1, "r"⟩ "down"
     rfl rfl,
   (c8_routing_agent_verbatim "m" _ _ _ _ _ _).2.2 ⟨"banana", 1, "r"⟩ []
     rfl rfl⟩

/-- Rejection condition of C6 exactly as the claim words it: the
`message` field is absent, or `context.history` is present but not a
list, or some history item lacks both `role` and `content`. -/
def claim_reject_cond (req : List (String × PyVal)) : Bool :=
  (lookupKey req "message").isNone ||
  (match (lookupKey req "context").getD (.dict []) with
   | .dict fs =>
     match lookupKey fs "history" with
     | some (.list items) =>
         items.any (fun it => !(it.has_key "role") && !(it.has_key "content"))
     | some _ => true
     | none => false
   | _ => false)

/-- Rejection condition actually implemented by the `agent` view:
`context.history` present but not a list, or some history item that is
not a dict or lacks `role` or lacks `content` (either one suffices), or
a falsy `message` (absent or empty). -/
def history_invalid (context : PyVal) : Bool :=
  match context with
  | .dict fs =>
    match lookupKey fs "history" with
    | some (.list items) => !(items.all valid_history_item)
    | some _ => true
    | none => false
  | _ => false

/-- C6 counterexample: a request whose single history item has `role`
but no `content` is rejected with HTTP 400 by the view, although the
claim's rejection condition (item lacks both keys) does not hold. -/
theorem c6_agent_endpoint_counterexample :
    (claim_reject_cond
      [("message", PyVal.str "hi"),
       ("context", PyVal.dict [("history",
         PyVal.list [PyVal.dict [("role", PyVal.str "user")]])])] = false) ∧
    (is_reject (agent_view
      [("message", PyVal.str "hi"),
       ("context", PyVal.dict [("history",
         PyVal.list [PyVal.dict [("role", PyVal.str "user")]])])] ) = true) :=
  ⟨rfl, rfl⟩

/-- C6 amended: the `agent` view rejects with a client error exactly
when `context.history` is present but not a list, or some history item
is not a dict or lacks `role` or lacks `content` (either missing key
suffices, not both), or the `message` is falsy (absent or empty);
otherwise the message and processed history are passed to the router. -/
theorem c6_agent_endpoint_reject_iff (req : List (String × PyVal)) :
    is_reject (agent_view req) =
      (history_invalid ((lookupKey req "context").getD (.dict [])) ||
       !(pyTruthy ((lookupKey req "message").getD .null))) := by
  simp only [agent_view, history_invalid]
  rcases hc : (lookupKey req "context").getD (.dict []) with s | q | fs | items | b
  case dict =>
    rcases hh : lookupKey fs "history" with - | v
    · simp only [validate_history, hh]
      cases hm : pyTruthy ((lookupKey req "message").getD .null) <;>
        simp [is_reject, hm]
    · rcases v with s' | q' | fs' | items' | b'
      case list =>
        cases ha : items'.all valid_history_item <;>
          [skip; cases hm : pyTruthy ((lookupKey req "message").getD .null)] <;>
          simp [validate_history, hh, ha, is_reject, *]
      all_goals
        simp [validate_history, hh, is_reject]
  all_goals
    simp only [validate_history]
    cases hm : pyTruthy ((lookupKey req "message").getD .null) <;>
      simp [is_reject, hm]

end Wapu
